import Mathlib

/-!
Shallow embedding of `src/cad-pulse.c` (callaudiod's PulseAudio routing
core).  Machine integers of the C source are modelled as `Int` (server
indices, `eol` markers) and `Nat` (`guint` values, port priorities);
`NULL`-able C pointers and strings are modelled as `Option`; the
`WITH_DROID_SUPPORT` preprocessor conditional is a `Bool` parameter
(`withDroid`), with `true` matching this repository, which hard-defines
`WITH_DROID_SUPPORT 1` at line 31.
-/

/-- Availability tri-state of a PulseAudio port (`pa_port_available`). -/
inductive PortAvail
  | yes
  | no
  | unknown
deriving DecidableEq, Repr

/-- One entry of a sink's or source's port array (`pa_sink_port_info` /
`pa_source_port_info`): name, priority and availability. -/
structure Port where
  name : String
  priority : Nat
  available : PortAvail
deriving DecidableEq, Repr

/-- Payload of a `pa_sink_info` callback, restricted to the fields
`cad-pulse.c` reads: `index`, `card`, `name`, `ports`, `active_port->name`. -/
structure SinkInfo where
  index : Int
  card : Int
  name : String
  ports : List Port
  activePortName : String
deriving DecidableEq, Repr

/-- Payload of a `pa_source_info` callback, restricted to the fields
`cad-pulse.c` reads, including the `mute` flag used by `set_mic_mute`. -/
structure SourceInfo where
  index : Int
  card : Int
  name : String
  ports : List Port
  activePortName : String
  mute : Bool
deriving DecidableEq, Repr

/-- Droid port-name constant `DROID_OUTPUT_PORT_WIRED_HEADSET` (line 40). -/
def DROID_OUTPUT_PORT_WIRED_HEADSET : String := "output-wired_headset"

/-- Droid port-name constant `DROID_OUTPUT_PORT_SPEAKER` (line 38). -/
def DROID_OUTPUT_PORT_SPEAKER : String := "output-speaker"

/-- Droid port-name constant `DROID_OUTPUT_PORT_EARPIECE` (line 39). -/
def DROID_OUTPUT_PORT_EARPIECE : String := "output-earpiece"

/-- Droid port-name constant `DROID_INPUT_PORT_WIRED_HEADSET_MIC` (line 43). -/
def DROID_INPUT_PORT_WIRED_HEADSET_MIC : String := "input-wired_headset"

/-- Droid port-name constant `DROID_INPUT_PORT_BUILTIN_MIC` (line 42). -/
def DROID_INPUT_PORT_BUILTIN_MIC : String := "input-builtin_mic"

/-- The `available_port` accumulator test of the native branch of both
selectors: `!available_port || port->priority > available_port->priority`. -/
def betterThan (acc : Option Port) (p : Port) : Bool :=
  match acc with
  | none => true
  | some best => decide (p.priority > best.priority)

/-- Loop body of `get_available_sink_port` (lines 284-309): iterates over the
port array carrying the `available_port` accumulator.  A port is skipped when
its name equals the (non-null) `exclude` or its availability is `NO`.  In the
droid branch, `output-wired_headset` returns immediately (the C `break`),
`output-speaker` and `output-earpiece` overwrite the accumulator, and any
other name leaves it untouched; in the native branch the accumulator keeps
the highest-priority port seen so far. -/
def sinkPortLoop (exclude : Option String) (droid : Bool) :
    List Port → Option Port → Option Port
  | [], acc => acc
  | port :: rest, acc =>
    if exclude = some port.name ∨ port.available = PortAvail.no then
      sinkPortLoop exclude droid rest acc
    else
      match droid with
      | true =>
        if port.name = DROID_OUTPUT_PORT_WIRED_HEADSET then
          some port
        else if port.name = DROID_OUTPUT_PORT_SPEAKER ∨
                port.name = DROID_OUTPUT_PORT_EARPIECE then
          sinkPortLoop exclude droid rest (some port)
        else
          sinkPortLoop exclude droid rest acc
      | false =>
        if betterThan acc port then
          sinkPortLoop exclude droid rest (some port)
        else
          sinkPortLoop exclude droid rest acc

/-- `get_available_sink_port(sink, exclude, source_is_droid)` (lines 274-319):
runs the loop starting from a null accumulator and returns the name of the
found port, or `NULL` (`none`).  Note the droid flag the callers pass is the
*source's* flavor, mirroring the parameter name in the C. -/
def get_available_sink_port (sink : SinkInfo) (exclude : Option String)
    (source_is_droid : Bool) : Option String :=
  (sinkPortLoop exclude source_is_droid sink.ports none).map Port.name

/-- Loop body of `get_available_source_port` (lines 116-141), same skipping
rule; in the droid branch `input-wired_headset` returns immediately and
`input-builtin_mic` overwrites the accumulator. -/
def sourcePortLoop (exclude : Option String) (droid : Bool) :
    List Port → Option Port → Option Port
  | [], acc => acc
  | port :: rest, acc =>
    if exclude = some port.name ∨ port.available = PortAvail.no then
      sourcePortLoop exclude droid rest acc
    else
      match droid with
      | true =>
        if port.name = DROID_INPUT_PORT_WIRED_HEADSET_MIC then
          some port
        else if port.name = DROID_INPUT_PORT_BUILTIN_MIC then
          sourcePortLoop exclude droid rest (some port)
        else
          sourcePortLoop exclude droid rest acc
      | false =>
        if betterThan acc port then
          sourcePortLoop exclude droid rest (some port)
        else
          sourcePortLoop exclude droid rest acc

/-- `get_available_source_port(source, exclude, source_is_droid)`
(lines 95-151). -/
def get_available_source_port (source : SourceInfo) (exclude : Option String)
    (source_is_droid : Bool) : Option String :=
  (sourcePortLoop exclude source_is_droid source.ports none).map Port.name

lemma sinkPortLoop_sound (exclude : Option String) (droid : Bool) :
    ∀ (ports : List Port) (acc : Option Port) (p : Port),
      sinkPortLoop exclude droid ports acc = some p →
      (∀ q, acc = some q →
        q.available ≠ PortAvail.no ∧ exclude ≠ some q.name) →
      (p ∈ ports ∧ p.available ≠ PortAvail.no ∧ exclude ≠ some p.name) ∨
        acc = some p := by
  intro ports
  induction ports with
  | nil =>
    intro acc p h _
    exact Or.inr h
  | cons port rest ih =>
    intro acc p h hacc
    simp only [sinkPortLoop] at h
    by_cases hskip : exclude = some port.name ∨ port.available = PortAvail.no
    · rw [if_pos hskip] at h
      rcases ih acc p h hacc with ⟨hmem, hcond⟩ | heq
      · exact Or.inl ⟨List.mem_cons_of_mem _ hmem, hcond⟩
      · exact Or.inr heq
    · rw [if_neg hskip] at h
      rw [not_or] at hskip
      obtain ⟨hex, hav⟩ := hskip
      have hok : port.available ≠ PortAvail.no ∧ exclude ≠ some port.name :=
        ⟨hav, hex⟩
      cases droid with
      | true =>
        by_cases hw : port.name = DROID_OUTPUT_PORT_WIRED_HEADSET
        · rw [if_pos hw] at h
          obtain rfl : port = p := Option.some.inj h
          exact Or.inl ⟨List.mem_cons_self _ _, hok⟩
        · rw [if_neg hw] at h
          by_cases hc : port.name = DROID_OUTPUT_PORT_SPEAKER ∨
              port.name = DROID_OUTPUT_PORT_EARPIECE
          · rw [if_pos hc] at h
            rcases ih (some port) p h
                (fun q hq => by cases Option.some.inj hq; exact hok) with
              ⟨hmem, hcond⟩ | heq
            · exact Or.inl ⟨List.mem_cons_of_mem _ hmem, hcond⟩
            · obtain rfl : port = p := Option.some.inj heq
              exact Or.inl ⟨List.mem_cons_self _ _, hok⟩
          · rw [if_neg hc] at h
            rcases ih acc p h hacc with ⟨hmem, hcond⟩ | heq
            · exact Or.inl ⟨List.mem_cons_of_mem _ hmem, hcond⟩
            · exact Or.inr heq
      | false =>
        by_cases hb : betterThan acc port = true
        · rw [if_pos hb] at h
          rcases ih (some port) p h
              (fun q hq => by cases Option.some.inj hq; exact hok) with
            ⟨hmem, hcond⟩ | heq
          · exact Or.inl ⟨List.mem_cons_of_mem _ hmem, hcond⟩
          · obtain rfl : port = p := Option.some.inj heq
            exact Or.inl ⟨List.mem_cons_self _ _, hok⟩
        · rw [if_neg hb] at h
          rcases ih acc p h hacc with ⟨hmem, hcond⟩ | heq
          · exact Or.inl ⟨List.mem_cons_of_mem _ hmem, hcond⟩
          · exact Or.inr heq

lemma sourcePortLoop_sound (exclude : Option String) (droid : Bool) :
    ∀ (ports : List Port) (acc : Option Port) (p : Port),
      sourcePortLoop exclude droid ports acc = some p →
      (∀ q, acc = some q →
        q.available ≠ PortAvail.no ∧ exclude ≠ some q.name) →
      (p ∈ ports ∧ p.available ≠ PortAvail.no ∧ exclude ≠ some p.name) ∨
        acc = some p := by
  intro ports
  induction ports with
  | nil =>
    intro acc p h _
    exact Or.inr h
  | cons port rest ih =>
    intro acc p h hacc
    simp only [sourcePortLoop] at h
    by_cases hskip : exclude = some port.name ∨ port.available = PortAvail.no
    · rw [if_pos hskip] at h
      rcases ih acc p h hacc with ⟨hmem, hcond⟩ | heq
      · exact Or.inl ⟨List.mem_cons_of_mem _ hmem, hcond⟩
      · exact Or.inr heq
    · rw [if_neg hskip] at h
      rw [not_or] at hskip
      obtain ⟨hex, hav⟩ := hskip
      have hok : port.available ≠ PortAvail.no ∧ exclude ≠ some port.name :=
        ⟨hav, hex⟩
      cases droid with
      | true =>
        by_cases hw : port.name = DROID_INPUT_PORT_WIRED_HEADSET_MIC
        · rw [if_pos hw] at h
          obtain rfl : port = p := Option.some.inj h
          exact Or.inl ⟨List.mem_cons_self _ _, hok⟩
        · rw [if_neg hw] at h
          by_cases hc : port.name = DROID_INPUT_PORT_BUILTIN_MIC
          · rw [if_pos hc] at h
            rcases ih (some port) p h
                (fun q hq => by cases Option.some.inj hq; exact hok) with
              ⟨hmem, hcond⟩ | heq
            · exact Or.inl ⟨List.mem_cons_of_mem _ hmem, hcond⟩
            · obtain rfl : port = p := Option.some.inj heq
              exact Or.inl ⟨List.mem_cons_self _ _, hok⟩
          · rw [if_neg hc] at h
            rcases ih acc p h hacc with ⟨hmem, hcond⟩ | heq
            · exact Or.inl ⟨List.mem_cons_of_mem _ hmem, hcond⟩
            · exact Or.inr heq
      | false =>
        by_cases hb : betterThan acc port = true
        · rw [if_pos hb] at h
          rcases ih (some port) p h
              (fun q hq => by cases Option.some.inj hq; exact hok) with
            ⟨hmem, hcond⟩ | heq
          · exact Or.inl ⟨List.mem_cons_of_mem _ hmem, hcond⟩
          · obtain rfl : port = p := Option.some.inj heq
            exact Or.inl ⟨List.mem_cons_self _ _, hok⟩
        · rw [if_neg hb] at h
          rcases ih acc p h hacc with ⟨hmem, hcond⟩ | heq
          · exact Or.inl ⟨List.mem_cons_of_mem _ hmem, hcond⟩
          · exact Or.inr heq

/-- Characterization of the droid branch of `get_available_sink_port`:
a non-skipped `output-wired_headset` anywhere in the remaining list wins
(the C `break`); otherwise the *last* non-skipped `output-speaker` or
`output-earpiece` wins (each occurrence overwrites the accumulator, with no
preference between the two names); no other name is ever selected. -/
def droidSinkSelect (exclude : Option String) : List Port → Option Port
  | [] => none
  | port :: rest =>
    if exclude = some port.name ∨ port.available = PortAvail.no then
      droidSinkSelect exclude rest
    else if port.name = DROID_OUTPUT_PORT_WIRED_HEADSET then
      some port
    else if port.name = DROID_OUTPUT_PORT_SPEAKER ∨
            port.name = DROID_OUTPUT_PORT_EARPIECE then
      some ((droidSinkSelect exclude rest).getD port)
    else
      droidSinkSelect exclude rest

lemma sinkPortLoop_droid_eq (exclude : Option String) :
    ∀ (ports : List Port) (acc : Option Port),
      sinkPortLoop exclude true ports acc =
        match droidSinkSelect exclude ports with
        | some q => some q
        | none => acc := by
  intro ports
  induction ports with
  | nil => intro acc; rfl
  | cons port rest ih =>
    intro acc
    simp only [sinkPortLoop, droidSinkSelect]
    by_cases hskip : exclude = some port.name ∨ port.available = PortAvail.no
    · rw [if_pos hskip, if_pos hskip, ih acc]
    · rw [if_neg hskip, if_neg hskip]
      by_cases hw : port.name = DROID_OUTPUT_PORT_WIRED_HEADSET
      · rw [if_pos hw, if_pos hw]
      · rw [if_neg hw, if_neg hw]
        by_cases hc : port.name = DROID_OUTPUT_PORT_SPEAKER ∨
            port.name = DROID_OUTPUT_PORT_EARPIECE
        · rw [if_pos hc, if_pos hc, ih (some port)]
          cases hd : droidSinkSelect exclude rest <;> simp [hd]
        · rw [if_neg hc, if_neg hc, ih acc]

/-- Operation kind from `cad-operation.h` / `libcallaudio.h`.  Modelled from
the spec: the header defining `CadOperationType`
(`CAD_OPERATION_SELECT_MODE`, `CAD_OPERATION_ENABLE_SPEAKER`,
`CAD_OPERATION_MUTE_MIC`) is not part of `src/`; the spec lists the three
intent kinds `SelectMode`, `EnableSpeaker`, `MuteMic`. -/
inductive OpType
  | selectMode
  | enableSpeaker
  | muteMic
deriving DecidableEq, Repr

/-- Constant `CALL_AUDIO_MODE_CALL`.  Modelled from the spec: the enum
`CallAudioMode` lives in `libcallaudio.h`, outside `src/`; the spec fixes
`SelectMode` values `Default = 0`, `Call = 1`. -/
def CALL_AUDIO_MODE_CALL : Nat := 1

/-- The fields of `struct _CadPulse` that the command handlers read
(lines 46-69): tracked indices, per-endpoint droid flags, and the cached
speaker port name (`NULL`-able). -/
structure PulseState where
  card_id : Int
  sink_id : Int
  source_id : Int
  sink_is_droid : Bool
  source_is_droid : Bool
  speaker_port : Option String
deriving DecidableEq, Repr

/-- Identity of the completion callback registered for an issued
`set sink port by index` request in `set_output_port` (lines 928-932): a
compile-time choice between `droid_output_port_change_complete_cb`
(droid-support builds) and `operation_complete_cb` (builds without droid
support). -/
inductive SinkPortContinuation
  | droidOutputPortChange
  | operationComplete
deriving DecidableEq, Repr

/-- Result of one invocation of the `set_output_port` callback
(lines 921-997).  The first three constructors are the early returns
(`eol != 0`, null info, card/sink index mismatch); `ubNullStrcmp` marks the
point where the C calls `strcmp(info->active_port->name, target_port)` with
`target_port == NULL` (undefined behaviour); `finalize` is the
"nothing to be done" path calling `operation_complete_cb(ctx, 1, operation)`;
`issueSetSinkPort` records the issued request and its completion callback. -/
inductive OutputPortOutcome
  | ignoredEol
  | ignoredNullInfo
  | ignoredMismatch
  | ubNullStrcmp
  | finalize
  | issueSetSinkPort (target : String) (cont : SinkPortContinuation)
deriving DecidableEq, Repr

/-- `set_output_port(ctx, info, eol, data)` (lines 921-997), with the
operation's fields (`op->type`, `value`) and the `CadPulse` state passed
explicitly and the `WITH_DROID_SUPPORT` conditional as `withDroid`. -/
def set_output_port (withDroid : Bool) (st : PulseState) (ot : OpType)
    (v : Nat) (eol : Int) (info : Option SinkInfo) : OutputPortOutcome :=
  if eol ≠ 0 then OutputPortOutcome.ignoredEol
  else
    match info with
    | none => OutputPortOutcome.ignoredNullInfo
    | some i =>
      if i.card ≠ st.card_id ∨ i.index ≠ st.sink_id then
        OutputPortOutcome.ignoredMismatch
      else
        let target : Option String :=
          if ot = OpType.selectMode then
            if v = CALL_AUDIO_MODE_CALL then
              get_available_sink_port i st.speaker_port st.source_is_droid
            else
              get_available_sink_port i none st.source_is_droid
          else
            if v ≠ 0 then st.speaker_port
            else get_available_sink_port i st.speaker_port st.source_is_droid
        match target with
        | none => OutputPortOutcome.ubNullStrcmp
        | some t =>
          if i.activePortName = t then OutputPortOutcome.finalize
          else
            OutputPortOutcome.issueSetSinkPort t
              (match withDroid with
               | true => SinkPortContinuation.droidOutputPortChange
               | false => SinkPortContinuation.operationComplete)

/-- Result of one invocation of the `set_input_port` callback
(lines 999-1035); same reading as `OutputPortOutcome`.  The null-info case
is `g_error` (process abort) in the C, kept as a distinct constructor. -/
inductive InputPortOutcome
  | ignoredEol
  | abortNullInfo
  | ignoredMismatch
  | ubNullStrcmp
  | finalize
  | issueSetSourcePort (target : String)
deriving DecidableEq, Repr

/-- `set_input_port(ctx, info, eol, data)` (lines 999-1035): computes the
input target with no exclusion and the source's droid flag, then either
skips (active already equals target, completing with success 1) or issues
`set source port by index` with `operation_complete_cb` as completion. -/
def set_input_port (st : PulseState) (eol : Int) (info : Option SourceInfo) :
    InputPortOutcome :=
  if eol ≠ 0 then InputPortOutcome.ignoredEol
  else
    match info with
    | none => InputPortOutcome.abortNullInfo
    | some i =>
      if i.card ≠ st.card_id ∨ i.index ≠ st.source_id then
        InputPortOutcome.ignoredMismatch
      else
        match get_available_source_port i none st.source_is_droid with
        | none => InputPortOutcome.ubNullStrcmp
        | some t =>
          if i.activePortName = t then InputPortOutcome.finalize
          else InputPortOutcome.issueSetSourcePort t

/-- Result of one invocation of the `set_mic_mute` callback
(lines 1037-1069): early returns, an issued `set source mute by index`
request carrying the written value, or the immediate
`operation_complete_cb(ctx, 1, operation)` path. -/
inductive MicMuteOutcome
  | ignoredEol
  | ignoredNullInfo
  | ignoredMismatch
  | issueSetMute (v : Nat)
  | finalize
deriving DecidableEq, Repr

/-- `set_mic_mute(ctx, info, eol, data)` (lines 1037-1069). -/
def set_mic_mute (st : PulseState) (value : Nat) (eol : Int)
    (info : Option SourceInfo) : MicMuteOutcome :=
  if eol ≠ 0 then MicMuteOutcome.ignoredEol
  else
    match info with
    | none => MicMuteOutcome.ignoredNullInfo
    | some i =>
      if i.card ≠ st.card_id ∨ i.index ≠ st.source_id then
        MicMuteOutcome.ignoredMismatch
      else if i.mute ∧ value = 0 then MicMuteOutcome.issueSetMute 0
      else if ¬ i.mute ∧ value ≠ 0 then MicMuteOutcome.issueSetMute 1
      else MicMuteOutcome.finalize

/-- `operation_complete_cb(ctx, success, data)` (lines 756-775), as a pure
transition on `current_mode`: given the current mode, the operation's
`op` pointer content (`none` models `operation->op == NULL`), its `value`
and the request's success flag, returns the new `current_mode` paired with
the list of completion-handle invocations performed (each carrying the
success value written into `op->success`). -/
def operation_complete_cb (currentMode : Nat) (opType : Option OpType)
    (value : Nat) (success : Bool) : Nat × List Bool :=
  match opType with
  | none => (currentMode, [])
  | some t =>
    (if t = OpType.selectMode ∧ success = true then value else currentMode,
     [success])

/-- Outcome of running a callback chain to quiescence: the user completion
handle was invoked with the given success flag (`completed`), the chain
stalled on an early return without advancing (`stalled`), or it reached the
null-target `strcmp` undefined behaviour (`ub`). -/
inductive ChainResult
  | completed (success : Bool)
  | stalled
  | ub
deriving DecidableEq, Repr

/-- Runs `set_input_port` on a fetched source payload and follows it to the
terminal callback: the skip path calls `operation_complete_cb(ctx, 1, ...)`
(success), an issued `set source port by index` completes with the server's
flag `setSourceS`, delivered by `operation_complete_cb`. -/
def run_set_input_port (st : PulseState) (so : SourceInfo)
    (setSourceS : Bool) : ChainResult :=
  match set_input_port st 0 (some so) with
  | InputPortOutcome.ignoredEol => ChainResult.stalled
  | InputPortOutcome.abortNullInfo => ChainResult.stalled
  | InputPortOutcome.ignoredMismatch => ChainResult.stalled
  | InputPortOutcome.ubNullStrcmp => ChainResult.ub
  | InputPortOutcome.finalize => ChainResult.completed true
  | InputPortOutcome.issueSetSourcePort _ => ChainResult.completed setSourceS

/-- Semantics of the completion callback registered by `set_output_port` for
an issued sink-port request, receiving the request's success flag `reqS`:
`operation_complete_cb` delivers `reqS` to the completion handle, while
`droid_output_port_change_complete_cb` (lines 849-863) ignores `reqS`,
fetches the source and runs `set_input_port`. -/
def run_sink_port_continuation (c : SinkPortContinuation) (st : PulseState)
    (so : SourceInfo) (reqS setSourceS : Bool) : ChainResult :=
  match c with
  | SinkPortContinuation.operationComplete => ChainResult.completed reqS
  | SinkPortContinuation.droidOutputPortChange =>
    run_set_input_port st so setSourceS

/-- Runs `set_output_port` on a fetched sink payload and follows its outcome:
the skip path completes with success, an issued request completes with the
server flag `setSinkS` and continues per its registered callback. -/
def run_set_output_port (withDroid : Bool) (st : PulseState) (ot : OpType)
    (v : Nat) (si : SinkInfo) (so : SourceInfo) (setSinkS setSourceS : Bool) :
    ChainResult :=
  match set_output_port withDroid st ot v 0 (some si) with
  | OutputPortOutcome.ignoredEol => ChainResult.stalled
  | OutputPortOutcome.ignoredNullInfo => ChainResult.stalled
  | OutputPortOutcome.ignoredMismatch => ChainResult.stalled
  | OutputPortOutcome.ubNullStrcmp => ChainResult.ub
  | OutputPortOutcome.finalize => ChainResult.completed true
  | OutputPortOutcome.issueSetSinkPort _ c =>
    run_sink_port_continuation c st so setSinkS setSourceS

/-- `droid_mode_change_complete_cb(ctx, success, data)` (lines 820-847) run
to the end of its chain, for a `SelectMode` operation with mode `v` in a
droid-support build.  If the tracked sink is not droid, it tail-calls
`operation_complete_cb` with the profile change's own success flag
`profileS`.  Otherwise it issues the `output-parking` request, whose
completion (`droid_sink_parked_complete_cb`, lines 799-818, success flag
`parkSinkS`) issues the `input-parking` request, whose completion
(`droid_source_parked_complete_cb`, lines 778-797, success flag
`parkSourceS`) fetches the sink and runs `set_output_port`; the droid
continuation then ignores the sink-port request's flag `setSinkS` and runs
`set_input_port` on the fetched source payload.  The three intermediate
flags are received by callbacks that never read them. -/
def droid_mode_change_complete (st : PulseState) (v : Nat) (si : SinkInfo)
    (so : SourceInfo)
    (profileS parkSinkS parkSourceS setSinkS setSourceS : Bool) :
    ChainResult :=
  match st.sink_is_droid with
  | false => ChainResult.completed profileS
  | true =>
    run_set_output_port true st OpType.selectMode v si so setSinkS setSourceS

/-- The implicit-unmute pre-step of `cad_pulse_select_mode`
(lines 1100-1114) run to its end: the auxiliary operation is allocated with
`g_new0` (so `unmute_op->op == NULL`) and `value = FALSE`; the source fetch
delivers `(eol, info)` to `set_mic_mute`, and an issued
`set source mute by index` request completes with flag `muteReqS` through
`operation_complete_cb`.  Returns the resulting `current_mode` and the list
of completion-handle invocations. -/
def run_unmute_prestep (st : PulseState) (currentMode : Nat) (eol : Int)
    (info : Option SourceInfo) (muteReqS : Bool) : Nat × List Bool :=
  match set_mic_mute st 0 eol info with
  | MicMuteOutcome.issueSetMute _ =>
    operation_complete_cb currentMode none 0 muteReqS
  | MicMuteOutcome.finalize => operation_complete_cb currentMode none 0 true
  | _ => (currentMode, [])

/-- Payload of a `pa_module_info` callback restricted to the fields read by
`init_module_info`: `index` and `name`. -/
structure ModuleInfo where
  index : Nat
  name : String
deriving DecidableEq, Repr

/-- `init_module_info(ctx, info, eol, data)` (lines 511-533): returns the
index of the module an unload request is issued for, or `none`.  The unload
block sits under `#ifndef WITH_DROID_SUPPORT`, so it exists only in builds
without droid support (`withDroidSupport = false`, the native back-end
build); this repository defines `WITH_DROID_SUPPORT 1` (line 31). -/
def init_module_info (withDroidSupport : Bool) (eol : Int)
    (info : Option ModuleInfo) : Option Nat :=
  if eol ≠ 0 then none
  else
    match info with
    | none => none
    | some m =>
      match withDroidSupport with
      | true => none
      | false =>
        if m.name = "module-switch-on-port-available" then some m.index
        else none

/-- The three proplist entries `init_card_info` reads from a card:
`device.bus_path`, `device.form_factor`, `device.class`; `none` models a
property absent from the proplist (`pa_proplist_gets` returning `NULL`). -/
structure CardProps where
  bus_path : Option String
  form_factor : Option String
  device_class : Option String
deriving DecidableEq, Repr

/-- The accept predicate of `init_card_info` (lines 474-482): each check is
`if (prop && bad(prop)) return;`, so a card whose property is *absent*
passes that check. -/
def init_card_accept (p : CardProps) : Bool :=
  if p.bus_path.any (fun b => ! b.startsWith "platform-") then false
  else if p.form_factor.any (fun f => f != "internal") then false
  else if p.device_class.any (fun c => c == "modem") then false
  else true

/-- Card-accept predicate in the spec's words ("Card accepted iff
`device.bus_path` starts with `platform-` AND `device.form_factor ==
internal` AND `device.class != modem`", with absent bus-path or form-factor
rejecting, per the claim); written for comparison with `init_card_accept`. -/
def card_accepted_spec (p : CardProps) : Bool :=
  (match p.bus_path with
   | some b => b.startsWith "platform-"
   | none => false) &&
  (p.form_factor == some "internal") &&
  (p.device_class != some "modem")

/-- Card-accept predicate as amended: a present property must pass its
check, an absent property passes vacuously. -/
def card_accepted_amended (p : CardProps) : Bool :=
  (p.bus_path.all (fun b => b.startsWith "platform-")) &&
  (p.form_factor.all (fun f => f == "internal")) &&
  (p.device_class.all (fun c => c != "modem"))

/-- The initial port selection of `init_sink_info` (lines 439-443): after
`process_new_sink`, the selector is invoked with no exclusion and
`self->source_is_droid`. -/
def init_sink_selected_port (st : PulseState) (info : SinkInfo) :
    Option String :=
  get_available_sink_port info none st.source_is_droid

lemma set_output_port_cont_true (st : PulseState) (ot : OpType)
    (v : Nat) (eol : Int) (info : Option SinkInfo) (t : String)
    (c : SinkPortContinuation)
    (h : set_output_port true st ot v eol info =
      OutputPortOutcome.issueSetSinkPort t c) :
    c = SinkPortContinuation.droidOutputPortChange := by
  simp only [set_output_port] at h
  split at h
  · exact OutputPortOutcome.noConfusion h
  · split at h
    · exact OutputPortOutcome.noConfusion h
    · split at h
      · exact OutputPortOutcome.noConfusion h
      · split at h
        · exact OutputPortOutcome.noConfusion h
        · split at h
          · exact OutputPortOutcome.noConfusion h
          · injection h with h1 h2
            exact h2.symm

lemma set_output_port_cont_false (st : PulseState) (ot : OpType)
    (v : Nat) (eol : Int) (info : Option SinkInfo) (t : String)
    (c : SinkPortContinuation)
    (h : set_output_port false st ot v eol info =
      OutputPortOutcome.issueSetSinkPort t c) :
    c = SinkPortContinuation.operationComplete := by
  simp only [set_output_port] at h
  split at h
  · exact OutputPortOutcome.noConfusion h
  · split at h
    · exact OutputPortOutcome.noConfusion h
    · split at h
      · exact OutputPortOutcome.noConfusion h
      · split at h
        · exact OutputPortOutcome.noConfusion h
        · split at h
          · exact OutputPortOutcome.noConfusion h
          · injection h with h1 h2
            exact h2.symm

/-- Witness sink for the output selector: one available, non-excluded port. -/
def w1Sink : SinkInfo :=
  ⟨1, 0, "sink", [⟨"earpiece", 10, PortAvail.yes⟩], "x"⟩

/-- Witness source for the input selector: one available, non-excluded
port. -/
def w1Source : SourceInfo :=
  ⟨2, 0, "source", [⟨"mic", 10, PortAvail.yes⟩], "x", false⟩

/-- Claim C1: both port selectors are pure functions — identical inputs
yield identical outputs — and whenever a selector returns a name, that name
belongs to a port of the given list whose availability is not `No` and
differs from the exclusion; otherwise the selector returns `none`. -/
theorem C1_port_selectors_sound :
    (∀ (s1 s2 : SinkInfo) (e1 e2 : Option String) (d1 d2 : Bool),
        s1 = s2 → e1 = e2 → d1 = d2 →
        get_available_sink_port s1 e1 d1 = get_available_sink_port s2 e2 d2) ∧
    (∀ (s : SinkInfo) (e : Option String) (d : Bool) (name : String),
        get_available_sink_port s e d = some name →
        ∃ p, p ∈ s.ports ∧ p.name = name ∧ p.available ≠ PortAvail.no ∧
          e ≠ some name) ∧
    (∀ (s1 s2 : SourceInfo) (e1 e2 : Option String) (d1 d2 : Bool),
        s1 = s2 → e1 = e2 → d1 = d2 →
        get_available_source_port s1 e1 d1 =
          get_available_source_port s2 e2 d2) ∧
    (∀ (s : SourceInfo) (e : Option String) (d : Bool) (name : String),
        get_available_source_port s e d = some name →
        ∃ p, p ∈ s.ports ∧ p.name = name ∧ p.available ≠ PortAvail.no ∧
          e ≠ some name) := by
  refine ⟨?_, ?_, ?_, ?_⟩
  · rintro s1 s2 e1 e2 d1 d2 rfl rfl rfl
    rfl
  · intro s e d name h
    obtain ⟨p, hp, hname⟩ := Option.map_eq_some'.mp h
    rcases sinkPortLoop_sound e d s.ports none p hp
        (fun q hq => Option.noConfusion hq) with ⟨hmem, hav, hex⟩ | habs
    · exact ⟨p, hmem, hname, hav, hname ▸ hex⟩
    · exact Option.noConfusion habs
  · rintro s1 s2 e1 e2 d1 d2 rfl rfl rfl
    rfl
  · intro s e d name h
    obtain ⟨p, hp, hname⟩ := Option.map_eq_some'.mp h
    rcases sourcePortLoop_sound e d s.ports none p hp
        (fun q hq => Option.noConfusion hq) with ⟨hmem, hav, hex⟩ | habs
    · exact ⟨p, hmem, hname, hav, hname ▸ hex⟩
    · exact Option.noConfusion habs

/-- Witness for C1: the selectors evaluated on concrete one-port inputs,
with the postcondition instantiated there. -/
theorem C1_port_selectors_sound_witness :
    (get_available_sink_port w1Sink none false =
      get_available_sink_port w1Sink none false) ∧
    (∃ p, p ∈ w1Sink.ports ∧ p.name = "earpiece" ∧
      p.available ≠ PortAvail.no ∧ (none : Option String) ≠ some "earpiece") ∧
    (∃ p, p ∈ w1Source.ports ∧ p.name = "mic" ∧
      p.available ≠ PortAvail.no ∧ (none : Option String) ≠ some "mic") :=
  ⟨C1_port_selectors_sound.1 w1Sink w1Sink none none false false rfl rfl rfl,
   C1_port_selectors_sound.2.1 w1Sink none false "earpiece" (by decide),
   C1_port_selectors_sound.2.2.2 w1Source none false "mic" (by decide)⟩

/-- Sink whose port list holds `output-speaker` before `output-earpiece`,
both available; on droid the selector should, per the claim, return
`output-speaker`. -/
def c2Sink : SinkInfo :=
  ⟨1, 0, "sink",
   [⟨"output-speaker", 100, PortAvail.yes⟩,
    ⟨"output-earpiece", 50, PortAvail.yes⟩], "x"⟩

/-- Claim C2 counterexample: with both `output-speaker` and
`output-earpiece` available candidates and no wired headset, the droid
output selector returns `output-earpiece` (the later entry overwrites the
accumulator), not `output-speaker` as the claim requires. -/
theorem C2_speaker_preference_counterexample :
    get_available_sink_port c2Sink none true = some "output-earpiece" ∧
    some "output-earpiece" ≠ some "output-speaker" := by
  constructor
  · rfl
  · decide

/-- Claim C2 as amended: for every droid-flavored output selection, a
present, non-skipped `output-wired_headset` is selected (short-circuit);
otherwise the selector returns the *last* non-skipped port named
`output-speaker` or `output-earpiece` (later occurrences override earlier
ones, with no preference between the two names), and never any other name;
`none` if no such candidate remains. -/
theorem C2_droid_selector_amended (sink : SinkInfo) (exclude : Option String) :
    get_available_sink_port sink exclude true =
      (droidSinkSelect exclude sink.ports).map Port.name := by
  unfold get_available_sink_port
  rw [sinkPortLoop_droid_eq]
  cases hd : droidSinkSelect exclude sink.ports <;> simp [hd]

lemma run_set_output_port_ignores_sink_flag (st : PulseState) (ot : OpType)
    (v : Nat) (si : SinkInfo) (so : SourceInfo) (c1 c2 d : Bool) :
    run_set_output_port true st ot v si so c1 d =
      run_set_output_port true st ot v si so c2 d := by
  unfold run_set_output_port
  cases h : set_output_port true st ot v 0 (some si) <;> try rfl
  case issueSetSinkPort t c =>
    rw [set_output_port_cont_true st ot v 0 (some si) t c h]
    rfl

/-- Tracked droid state for the `SelectMode(Call)` chain scenario. -/
def st3 : PulseState := ⟨0, 1, 2, true, true, some "output-speaker"⟩

/-- Fetched sink payload during the droid chain: parked output, one
available earpiece. -/
def si3 : SinkInfo :=
  ⟨1, 0, "sink", [⟨"output-earpiece", 50, PortAvail.yes⟩], "output-parking"⟩

/-- Fetched source payload during the droid chain: parked input, one
available builtin mic. -/
def so3 : SourceInfo :=
  ⟨2, 0, "source", [⟨"input-builtin_mic", 50, PortAvail.yes⟩],
   "input-parking", false⟩

/-- Claim C3 counterexample: on a droid sink, the chain whose profile-change
request completed with success = false (first flag) still invokes the
completion handle with success = true, because
`droid_mode_change_complete_cb` ignores its success argument and the
terminal callback only sees the final request's flag. -/
theorem C3_failure_propagation_counterexample :
    droid_mode_change_complete st3 1 si3 so3 false true true true true =
      ChainResult.completed true ∧
    ChainResult.completed true ≠ ChainResult.completed false := by
  exact ⟨rfl, by decide⟩

/-- Claim C3 as amended: a server request returning success = false is
propagated to the completion handle only when its completion callback is
(or falls through to) `operation_complete_cb` — the terminal request.  On a
non-droid sink the profile change is terminal and its flag is propagated;
on a droid sink the chain's result is independent of the profile-change and
parking and sink-port flags, and when the chain runs through to an issued
`set source port by index`, the handle receives exactly that final
request's flag. -/
theorem C3_failure_propagation_amended (st : PulseState) (v : Nat)
    (si : SinkInfo) (so : SourceInfo)
    (p1 a1 b1 c1 p2 a2 b2 c2 d : Bool) :
    (st.sink_is_droid = false →
      droid_mode_change_complete st v si so p1 a1 b1 c1 d =
        ChainResult.completed p1) ∧
    (st.sink_is_droid = true →
      droid_mode_change_complete st v si so p1 a1 b1 c1 d =
        droid_mode_change_complete st v si so p2 a2 b2 c2 d) ∧
    (∀ (t u : String),
      st.sink_is_droid = true →
      set_output_port true st OpType.selectMode v 0 (some si) =
        OutputPortOutcome.issueSetSinkPort t
          SinkPortContinuation.droidOutputPortChange →
      set_input_port st 0 (some so) =
        InputPortOutcome.issueSetSourcePort u →
      droid_mode_change_complete st v si so p1 a1 b1 c1 d =
        ChainResult.completed d) := by
  refine ⟨?_, ?_, ?_⟩
  · intro h
    simp [droid_mode_change_complete, h]
  · intro h
    simp only [droid_mode_change_complete, h]
    exact run_set_output_port_ignores_sink_flag st OpType.selectMode v si so
      c1 c2 d
  · intro t u hdroid hout hin
    simp [droid_mode_change_complete, hdroid, run_set_output_port, hout,
      run_sink_port_continuation, run_set_input_port, hin]

/-- Witness for C3's amended theorem at the concrete droid chain inputs. -/
theorem C3_failure_propagation_amended_witness :
    (droid_mode_change_complete st3 1 si3 so3 false true true true true =
      droid_mode_change_complete st3 1 si3 so3 true false false false true) ∧
    droid_mode_change_complete st3 1 si3 so3 false true true true true =
      ChainResult.completed true :=
  ⟨(C3_failure_propagation_amended st3 1 si3 so3
      false true true true true false false false true).2.1 rfl,
   (C3_failure_propagation_amended st3 1 si3 so3
      false true true true true false false false true).2.2
     "output-earpiece" "input-builtin_mic" rfl rfl rfl⟩

/-- Claim C4: at module discovery, a module named
`module-switch-on-port-available` gets an unload request in the native
build (`WITH_DROID_SUPPORT` undefined), and no module is ever unloaded in
the droid-support build, where the whole unload block is compiled out. -/
theorem C4_module_unload (eol : Int) (info : Option ModuleInfo)
    (m : ModuleInfo) (heol : eol = 0) (hinfo : info = some m) :
    (init_module_info false eol info =
      (if m.name = "module-switch-on-port-available" then some m.index
       else none)) ∧
    init_module_info true eol info = none := by
  subst heol
  subst hinfo
  constructor <;> simp [init_module_info]

/-- Witness module payload for C4. -/
def w4Module : ModuleInfo := ⟨7, "module-switch-on-port-available"⟩

/-- Witness for C4 at a concrete module payload. -/
theorem C4_module_unload_witness :
    (init_module_info false 0 (some w4Module) =
      (if w4Module.name = "module-switch-on-port-available" then
        some w4Module.index else none)) ∧
    init_module_info true 0 (some w4Module) = none :=
  C4_module_unload 0 (some w4Module) w4Module rfl rfl

/-- Tracked state with a runtime-native (non-droid) sink. -/
def c5State : PulseState := ⟨0, 1, 2, false, false, some "output-speaker"⟩

/-- Accepted sink payload whose active port differs from the computed
target, so a request is issued. -/
def c5Sink : SinkInfo :=
  ⟨1, 0, "sink", [⟨"output-earpiece", 100, PortAvail.yes⟩], "output-speaker"⟩

/-- Accepted source payload for the InputPortStep that follows. -/
def c5Source : SourceInfo :=
  ⟨2, 0, "source", [⟨"input-builtin_mic", 10, PortAvail.yes⟩], "input-x",
   false⟩

/-- Claim C5 counterexample: on a runtime-native sink (this build compiles
droid support in), the issued `set sink port by index` registers
`droid_output_port_change_complete_cb`, whose semantics is to run
InputPortStep (`set_input_port`) — not finalization as the claim states. -/
theorem C5_native_continuation_counterexample :
    c5State.sink_is_droid = false ∧
    set_output_port true c5State OpType.selectMode 0 0 (some c5Sink) =
      OutputPortOutcome.issueSetSinkPort "output-earpiece"
        SinkPortContinuation.droidOutputPortChange ∧
    SinkPortContinuation.droidOutputPortChange ≠
      SinkPortContinuation.operationComplete ∧
    run_sink_port_continuation SinkPortContinuation.droidOutputPortChange
        c5State c5Source false true =
      run_set_input_port c5State c5Source true ∧
    run_set_input_port c5State c5Source true = ChainResult.completed true :=
  ⟨rfl, rfl, by decide, rfl, rfl⟩

/-- Claim C5 as amended: the continuation of an issued sink-port request is
fixed by the build, not by the sink's flavor — with droid support compiled
in (this repository) it is always `droid_output_port_change_complete_cb`,
which runs InputPortStep, for native and droid sinks alike; only in a build
without droid support is it finalization (`operation_complete_cb`).  The
skip path (active port already equals target) still finalizes immediately
with success in both builds. -/
theorem C5_output_continuation_amended (st : PulseState) (ot : OpType)
    (v : Nat) (eol : Int) (info : Option SinkInfo) (so : SourceInfo)
    (t : String) (c : SinkPortContinuation) (reqS srcS : Bool) :
    (set_output_port true st ot v eol info =
        OutputPortOutcome.issueSetSinkPort t c →
      c = SinkPortContinuation.droidOutputPortChange ∧
      run_sink_port_continuation c st so reqS srcS =
        run_set_input_port st so srcS) ∧
    (set_output_port false st ot v eol info =
        OutputPortOutcome.issueSetSinkPort t c →
      c = SinkPortContinuation.operationComplete ∧
      run_sink_port_continuation c st so reqS srcS =
        ChainResult.completed reqS) := by
  constructor
  · intro h
    have hc := set_output_port_cont_true st ot v eol info t c h
    subst hc
    exact ⟨rfl, rfl⟩
  · intro h
    have hc := set_output_port_cont_false st ot v eol info t c h
    subst hc
    exact ⟨rfl, rfl⟩

/-- Witness for C5's amended theorem at the concrete native-sink input. -/
theorem C5_output_continuation_amended_witness :
    SinkPortContinuation.droidOutputPortChange =
      SinkPortContinuation.droidOutputPortChange ∧
    run_sink_port_continuation SinkPortContinuation.droidOutputPortChange
        c5State c5Source true true = run_set_input_port c5State c5Source true :=
  (C5_output_continuation_amended c5State OpType.selectMode 0 0 (some c5Sink)
    c5Source "output-earpiece" SinkPortContinuation.droidOutputPortChange
    true true).1 rfl

/-- Tracked state whose cached speaker port is the sink's only port. -/
def c6State : PulseState := ⟨0, 1, 2, false, false, some "output-speaker"⟩

/-- Accepted sink payload whose only available port is the excluded
speaker. -/
def c6Sink : SinkInfo :=
  ⟨1, 0, "sink", [⟨"output-speaker", 100, PortAvail.yes⟩], "output-speaker"⟩

/-- Claim C6: at a `SelectMode(Call)` operation on an accepted payload whose
only available port is the excluded speaker, the selector legally returns
`NULL`, and `set_output_port` reaches
`strcmp(info->active_port->name, target_port)` with `target_port == NULL` —
undefined behaviour, not the skip-or-issue totality the claim states. -/
theorem C6_null_target_ub :
    set_output_port true c6State OpType.selectMode CALL_AUDIO_MODE_CALL 0
      (some c6Sink) = OutputPortOutcome.ubNullStrcmp ∧
    get_available_sink_port c6Sink c6State.speaker_port
      c6State.source_is_droid = none :=
  ⟨rfl, rfl⟩

/-- Card payload whose proplist lacks all three properties. -/
def c7Card : CardProps := ⟨none, none, none⟩

/-- Claim C7 counterexample: a card lacking `device.bus_path`,
`device.form_factor` and `device.class` is accepted by `init_card_info`
(each check is `if (prop && bad) return;`, vacuous on an absent property),
while the claim's predicate rejects it. -/
theorem C7_missing_props_counterexample :
    init_card_accept c7Card = true ∧ card_accepted_spec c7Card = false :=
  ⟨rfl, rfl⟩

/-- Claim C7 as amended: a card is accepted iff every *present* property
passes its check — the bus path, when present, starts with `platform-`; the
form factor, when present, equals `internal`; the class, when present, is
not `modem`.  A card lacking a property passes that property's check. -/
theorem C7_card_filter_amended (p : CardProps) :
    init_card_accept p = card_accepted_amended p := by
  obtain ⟨bp, ff, dc⟩ := p
  rcases bp with _ | b <;> rcases ff with _ | f <;> rcases dc with _ | c <;>
    (try cases hb : b.startsWith "platform-") <;>
    (try cases hf : (f == "internal")) <;>
    (try cases hc : (c == "modem")) <;>
    simp_all [init_card_accept, card_accepted_amended, bne]

/-- Claim C8: `current_mode` is written only by `operation_complete_cb`
(the sole assignment in `cad-pulse.c`, line 769), and only when the
operation carries a user handle (`op != NULL`), its type is
`CAD_OPERATION_SELECT_MODE`, and the completion succeeded — in which case
it becomes the operation's requested `value`.  `EnableSpeaker` and
`MuteMic` completions and failed `SelectMode` completions leave it
unchanged. -/
theorem C8_current_mode_update (currentMode value : Nat)
    (opType : Option OpType) (success : Bool) :
    (operation_complete_cb currentMode opType value success).1 =
      if opType = some OpType.selectMode ∧ success = true then value
      else currentMode := by
  rcases opType with _ | t
  · simp [operation_complete_cb]
  · cases t <;> cases success <;> simp [operation_complete_cb]

/-- Tracked state with native sink and native source. -/
def c9StateNative : PulseState := ⟨0, 1, 2, false, false, none⟩

/-- Same state with only the source's flavor tag flipped to droid. -/
def c9StateDroidSource : PulseState := ⟨0, 1, 2, false, true, none⟩

/-- Sink payload where the native rule (highest priority) and the droid rule
(last of speaker/earpiece) pick different ports. -/
def c9Sink : SinkInfo :=
  ⟨1, 0, "sink",
   [⟨"output-earpiece", 100, PortAvail.yes⟩,
    ⟨"output-speaker", 50, PortAvail.yes⟩], "zzz"⟩

/-- Claim C9 counterexample: two states that differ only in the *source's*
back-end flavor tag select different sink ports — both in OutputPortStep
(`set_output_port`) and in the discovery-time selection of
`init_sink_info` — because every sink-selector call site passes
`self->source_is_droid`, not the sink's own flavor. -/
theorem C9_source_flavor_counterexample :
    c9StateDroidSource = { c9StateNative with source_is_droid := true } ∧
    set_output_port true c9StateNative OpType.selectMode 0 0 (some c9Sink) =
      OutputPortOutcome.issueSetSinkPort "output-earpiece"
        SinkPortContinuation.droidOutputPortChange ∧
    set_output_port true c9StateDroidSource OpType.selectMode 0 0
        (some c9Sink) =
      OutputPortOutcome.issueSetSinkPort "output-speaker"
        SinkPortContinuation.droidOutputPortChange ∧
    init_sink_selected_port c9StateNative c9Sink = some "output-earpiece" ∧
    init_sink_selected_port c9StateDroidSource c9Sink =
      some "output-speaker" ∧
    some "output-earpiece" ≠ some "output-speaker" :=
  ⟨rfl, rfl, rfl, rfl, rfl, by decide⟩

/-- Claim C9 as amended: sink port selection is independent of the *sink's*
flavor tag (`sink_is_droid` is never read by `set_output_port` or the
selector call of `init_sink_info`), but it does depend on the *source's*
flavor tag, which the code passes as the sink selector's droid flag; so the
claimed noninterference holds for `sink_is_droid` in place of
`source_is_droid`. -/
theorem C9_sink_flavor_noninterference (st : PulseState) (b w : Bool)
    (ot : OpType) (v : Nat) (eol : Int) (info : Option SinkInfo)
    (i2 : SinkInfo) :
    set_output_port w { st with sink_is_droid := b } ot v eol info =
      set_output_port w st ot v eol info ∧
    init_sink_selected_port { st with sink_is_droid := b } i2 =
      init_sink_selected_port st i2 :=
  ⟨rfl, rfl⟩

/-- Claim C10: the auxiliary implicit-unmute operation created by
`cad_pulse_select_mode` for `mode != CALL_AUDIO_MODE_CALL` is `g_new0`-ed,
so its `op` field is `NULL` and its `value` is 0; whatever payload its
source fetch delivers and whatever its `set source mute` request returns,
its terminal `operation_complete_cb` skips the `operation->op` block
entirely: no completion handle is invoked and `current_mode` is
unchanged. -/
theorem C10_prestep_no_completion (st : PulseState) (currentMode : Nat)
    (eol : Int) (info : Option SourceInfo) (muteReqS : Bool) :
    run_unmute_prestep st currentMode eol info muteReqS =
      (currentMode, ([] : List Bool)) := by
  unfold run_unmute_prestep
  cases h : set_mic_mute st 0 eol info <;> rfl
